import Mathlib

/-!
Verification development for the paul-bot poll system.

The Poll/Option voting aggregate is embedded shallowly:

* an Option (class Option in src/poll/option.py) is a record holding its id,
  label, in-memory voter set and optional author id; the Python set of voter
  ids is modelled as a Finset over the natural numbers;
* a Poll is a record holding the ordered list of its options, the
  allow-multiple-votes flag, the closed flag and the optional expiry time;
* the vote mutators remove_vote, add_vote and toggle_vote act on a poll
  state together with the index of the option they are invoked on;
* Poll methods that are not part of the given sources (remove_votes_from,
  new_option, close, create) are modelled from the specification and say so
  in their doc comments.
-/

/-- Embeds class Option of src/poll/option.py (named OptionState because
Option is taken by the core library): option id, label, the in-memory set
of voter ids, and the optional author id. The database pool field carries
no state relevant to the verified behaviour and is omitted. -/
structure OptionState where
  option_id : Nat
  label : String
  votes : Finset Nat
  author_id : Option Nat
deriving DecidableEq

/-- Embeds the poll aggregate: the ordered option list, the
allow-multiple-votes flag, the closed flag and the optional expiry
(seconds, as an integer). -/
structure PollState where
  options : List OptionState
  allow_multiple_votes : Bool
  closed : Bool
  expires : Option Int
deriving DecidableEq

/-- Replaces the element at index i, leaving the list unchanged when i is
out of range (embedding of mutating one Python object held in a list). -/
def modifyIdx (l : List α) (i : Nat) (f : α → α) : List α :=
  match l, i with
  | [], _ => []
  | x :: xs, 0 => f x :: xs
  | x :: xs, Nat.succ j => x :: modifyIdx xs j f

/-- Vote set of the option at index i of poll p, empty when out of range. -/
def optVotes (p : PollState) (i : Nat) : Finset Nat :=
  (Option.map OptionState.votes p.options[i]?).getD ∅

/-- Applies a transformation to the vote set of the option at index i. -/
def mapVotesAt (p : PollState) (i : Nat) (f : Finset Nat → Finset Nat) : PollState :=
  { p with options := modifyIdx p.options i (fun o => { o with votes := f o.votes }) }

/-- Applies a transformation to the vote set of every option of the poll. -/
def mapVotesAll (p : PollState) (f : Finset Nat → Finset Nat) : PollState :=
  { p with options := p.options.map (fun o => { o with votes := f o.votes }) }

/-- Modelled from the spec: Poll.remove_votes_from is not under src; section
4.2 specifies that it removes the voter id's vote from every option of this
poll (used internally to enforce single-vote exclusivity). -/
def remove_votes_from (p : PollState) (v : Nat) : PollState :=
  mapVotesAll p (fun s => s.erase v)

/-- Embeds Option.remove_vote of src/poll/option.py: deletes the persisted
vote row (sql.delete) and discards the voter from the in-memory set; set
discard does nothing when the voter is absent. -/
def remove_vote (p : PollState) (i : Nat) (v : Nat) : PollState :=
  mapVotesAt p i (fun s => s.erase v)

/-- Embeds Option.add_vote of src/poll/option.py: when the owning poll
disallows multiple votes it first calls poll.remove_votes_from(voter_id),
then inserts the vote row with ON CONFLICT DO NOTHING and adds the voter to
the in-memory set. -/
def add_vote (p : PollState) (i : Nat) (v : Nat) : PollState :=
  let p1 := if p.allow_multiple_votes then p else remove_votes_from p v
  mapVotesAt p1 i (fun s => insert v s)

/-- Embeds Option.toggle_vote of src/poll/option.py: removes the vote when
the voter id is in this option's vote set, otherwise adds it. -/
def toggle_vote (p : PollState) (i : Nat) (v : Nat) : PollState :=
  if v ∈ optVotes p i then remove_vote p i v else add_vote p i v

/-- Embeds the vote_count property of src/poll/option.py: the cardinality
of the vote set of the option at index i. -/
def vote_count (p : PollState) (i : Nat) : Nat :=
  (optVotes p i).card

/-- Single-vote invariant of the spec (sections 3 and 8): for a poll that
disallows multiple votes, each voter id appears in at most one option's
vote set (out-of-range indices read an empty set, so they never witness
membership). -/
def single_vote_invariant (p : PollState) : Prop :=
  p.allow_multiple_votes = false →
    ∀ v i j, v ∈ optVotes p i → v ∈ optVotes p j → i = j

-- Basic lemmas about modifyIdx and the state transformers.

theorem modifyIdx_getElem? (l : List α) (i j : Nat) (f : α → α) :
    (modifyIdx l i f)[j]? = if j = i then Option.map f l[j]? else l[j]? := by
  induction l generalizing i j with
  | nil => simp [modifyIdx]
  | cons x xs ih =>
    cases i with
    | zero =>
      cases j with
      | zero => simp [modifyIdx]
      | succ j => simp [modifyIdx]
    | succ i =>
      cases j with
      | zero => simp [modifyIdx]
      | succ j =>
        simp only [modifyIdx, List.getElem?_cons_succ]
        rw [ih]
        by_cases h : j = i <;> simp [h]

theorem modifyIdx_length (l : List α) (i : Nat) (f : α → α) :
    (modifyIdx l i f).length = l.length := by
  induction l generalizing i with
  | nil => rfl
  | cons x xs ih =>
    cases i with
    | zero => rfl
    | succ i => simpa [modifyIdx] using ih i

theorem mapVotesAt_getElem? (p : PollState) (i : Nat) (f : Finset Nat → Finset Nat) (j : Nat) :
    (mapVotesAt p i f).options[j]? =
      if j = i then Option.map (fun o => { o with votes := f o.votes }) p.options[j]?
      else p.options[j]? := by
  simp [mapVotesAt, modifyIdx_getElem?]

theorem mapVotesAll_getElem? (p : PollState) (f : Finset Nat → Finset Nat) (j : Nat) :
    (mapVotesAll p f).options[j]? =
      Option.map (fun o => { o with votes := f o.votes }) p.options[j]? := by
  simp [mapVotesAll]

theorem optVotes_mapVotesAt_ne (p : PollState) (i j : Nat) (f : Finset Nat → Finset Nat)
    (h : j ≠ i) : optVotes (mapVotesAt p i f) j = optVotes p j := by
  simp [optVotes, mapVotesAt_getElem?, h]

theorem optVotes_mapVotesAt_self (p : PollState) (i : Nat) (f : Finset Nat → Finset Nat)
    (h : i < p.options.length) : optVotes (mapVotesAt p i f) i = f (optVotes p i) := by
  rcases List.getElem?_eq_getElem h with he
  simp [optVotes, mapVotesAt_getElem?, he]

theorem optVotes_mapVotesAll (p : PollState) (f : Finset Nat → Finset Nat) (j : Nat)
    (h : j < p.options.length) : optVotes (mapVotesAll p f) j = f (optVotes p j) := by
  rcases List.getElem?_eq_getElem h with he
  simp [optVotes, mapVotesAll_getElem?, he]

theorem optVotes_out_of_range (p : PollState) (j : Nat) (h : p.options.length ≤ j) :
    optVotes p j = ∅ := by
  simp [optVotes, List.getElem?_eq_none h]

theorem mapVotesAt_allow (p : PollState) (i : Nat) (f : Finset Nat → Finset Nat) :
    (mapVotesAt p i f).allow_multiple_votes = p.allow_multiple_votes := rfl

theorem mapVotesAll_allow (p : PollState) (f : Finset Nat → Finset Nat) :
    (mapVotesAll p f).allow_multiple_votes = p.allow_multiple_votes := rfl

theorem mapVotesAt_length (p : PollState) (i : Nat) (f : Finset Nat → Finset Nat) :
    (mapVotesAt p i f).options.length = p.options.length := by
  simp [mapVotesAt, modifyIdx_length]

theorem mapVotesAll_length (p : PollState) (f : Finset Nat → Finset Nat) :
    (mapVotesAll p f).options.length = p.options.length := by
  simp [mapVotesAll]

theorem optVotes_remove_votes_from (p : PollState) (v : Nat) (j : Nat) :
    optVotes (remove_votes_from p v) j = (optVotes p j).erase v := by
  rcases lt_or_ge j p.options.length with h | h
  · exact optVotes_mapVotesAll p _ j h
  · rw [optVotes_out_of_range p j h, Finset.erase_empty, optVotes_out_of_range]
    simpa [remove_votes_from, mapVotesAll_length] using h

theorem optVotes_remove_vote (p : PollState) (i v : Nat) (j : Nat) :
    optVotes (remove_vote p i v) j =
      if j = i then (optVotes p j).erase v else optVotes p j := by
  by_cases hji : j = i
  · subst hji
    rcases lt_or_ge j p.options.length with h | h
    · simp [remove_vote, optVotes_mapVotesAt_self p j _ h]
    · rw [optVotes_out_of_range p j h, if_pos rfl, Finset.erase_empty, optVotes_out_of_range]
      simpa [remove_vote, mapVotesAt_length] using h
  · simp [remove_vote, optVotes_mapVotesAt_ne p i j _ hji, hji]

theorem remove_votes_from_allow (p : PollState) (v : Nat) :
    (remove_votes_from p v).allow_multiple_votes = p.allow_multiple_votes := rfl

theorem remove_votes_from_length (p : PollState) (v : Nat) :
    (remove_votes_from p v).options.length = p.options.length := by
  simp [remove_votes_from, mapVotesAll_length]

theorem optVotes_add_vote (p : PollState) (i v : Nat) (j : Nat) :
    optVotes (add_vote p i v) j =
      if j = i ∧ i < p.options.length then
        insert v (if p.allow_multiple_votes then optVotes p j
                  else (optVotes p j).erase v)
      else
        (if p.allow_multiple_votes then optVotes p j
         else (optVotes p j).erase v) := by
  unfold add_vote
  cases ha : p.allow_multiple_votes with
  | true =>
    simp only [ha, if_true]
    by_cases hji : j = i
    · subst hji
      rcases lt_or_ge j p.options.length with h | h
      · simp [optVotes_mapVotesAt_self p j _ h, h]
      · rw [optVotes_out_of_range p j h, Finset.insert_empty]
        have h2 : (mapVotesAt p j fun s => insert v s).options.length ≤ j := by
          simpa [mapVotesAt_length] using h
        rw [optVotes_out_of_range _ j h2]
        simp [Nat.not_lt.mpr h]
    · simp [optVotes_mapVotesAt_ne p i j _ hji, hji]
  | false =>
    simp only [ha, if_false, Bool.false_eq_true]
    by_cases hji : j = i
    · subst hji
      rcases lt_or_ge j p.options.length with h | h
      · have h1 : j < (remove_votes_from p v).options.length := by
          simpa [remove_votes_from_length] using h
        simp [optVotes_mapVotesAt_self _ j _ h1, optVotes_remove_votes_from, h]
      · rw [optVotes_out_of_range p j h, Finset.erase_empty, Finset.insert_empty]
        have h2 : (mapVotesAt (remove_votes_from p v) j fun s => insert v s).options.length ≤ j := by
          simpa [mapVotesAt_length, remove_votes_from_length] using h
        rw [optVotes_out_of_range _ j h2]
        simp [Nat.not_lt.mpr h]
    · simp [optVotes_mapVotesAt_ne _ i j _ hji, hji, optVotes_remove_votes_from]

theorem remove_vote_allow (p : PollState) (i v : Nat) :
    (remove_vote p i v).allow_multiple_votes = p.allow_multiple_votes := rfl

theorem add_vote_allow (p : PollState) (i v : Nat) :
    (add_vote p i v).allow_multiple_votes = p.allow_multiple_votes := by
  unfold add_vote
  split <;> rfl

theorem toggle_vote_allow (p : PollState) (i v : Nat) :
    (toggle_vote p i v).allow_multiple_votes = p.allow_multiple_votes := by
  unfold toggle_vote
  split
  · exact remove_vote_allow p i v
  · exact add_vote_allow p i v

theorem mem_optVotes_add_vote_single (p : PollState) (i v w a : Nat)
    (hallow : p.allow_multiple_votes = false)
    (haw : w ∈ optVotes (add_vote p i v) a) :
    (w = v ∧ a = i) ∨ (w ≠ v ∧ w ∈ optVotes p a) := by
  rw [optVotes_add_vote, hallow] at haw
  simp only [Bool.false_eq_true, if_false] at haw
  by_cases hc : a = i ∧ i < p.options.length
  · rw [if_pos hc] at haw
    rcases Finset.mem_insert.mp haw with h1 | h1
    · exact Or.inl ⟨h1, hc.1⟩
    · exact Or.inr ⟨(Finset.mem_erase.mp h1).1, (Finset.mem_erase.mp h1).2⟩
  · rw [if_neg hc] at haw
    exact Or.inr ⟨(Finset.mem_erase.mp haw).1, Finset.mem_of_mem_erase haw⟩

theorem mem_optVotes_remove_vote (p : PollState) (i v w j : Nat)
    (h : w ∈ optVotes (remove_vote p i v) j) : w ∈ optVotes p j := by
  rw [optVotes_remove_vote] at h
  by_cases hji : j = i
  · rw [if_pos hji] at h
    exact Finset.mem_of_mem_erase h
  · rwa [if_neg hji] at h

/-- C1: for every poll with allow_multiple_votes = false, each voter id
appears in at most one option's vote set; Option.add_vote first removes the
voter from every option of the poll via the poll's remove_votes_from before
adding the vote, so the single-vote invariant is preserved by every vote
mutation (add_vote, remove_vote and toggle_vote). -/
theorem c1_vote_mutations_preserve_single_vote_invariant (p : PollState) (i v : Nat)
    (h : single_vote_invariant p) :
    single_vote_invariant (add_vote p i v) ∧
    single_vote_invariant (remove_vote p i v) ∧
    single_vote_invariant (toggle_vote p i v) := by
  have hadd : single_vote_invariant (add_vote p i v) := by
    intro hallow w a b ha hb
    rw [add_vote_allow] at hallow
    rcases mem_optVotes_add_vote_single p i v w a hallow ha with ⟨hwv, hai⟩ | ⟨hne, hma⟩
    · rcases mem_optVotes_add_vote_single p i v w b hallow hb with ⟨_, hbi⟩ | ⟨hne2, _⟩
      · rw [hai, hbi]
      · exact absurd hwv hne2
    · rcases mem_optVotes_add_vote_single p i v w b hallow hb with ⟨hwv, _⟩ | ⟨_, hmb⟩
      · exact absurd hwv hne
      · exact h hallow w a b hma hmb
  have hrem : single_vote_invariant (remove_vote p i v) := by
    intro hallow w a b ha hb
    rw [remove_vote_allow] at hallow
    exact h hallow w a b (mem_optVotes_remove_vote p i v w a ha)
      (mem_optVotes_remove_vote p i v w b hb)
  refine ⟨hadd, hrem, ?_⟩
  unfold toggle_vote
  by_cases hv : v ∈ optVotes p i
  · rwa [if_pos hv]
  · rwa [if_neg hv]

/-- Concrete two-option poll (Yes/No, single-vote, open, no votes cast). -/
def pollAB : PollState :=
  { options :=
      [{ option_id := 1, label := "Yes", votes := ∅, author_id := none },
       { option_id := 2, label := "No", votes := ∅, author_id := none }],
    allow_multiple_votes := false,
    closed := false,
    expires := none }

theorem optVotes_pollAB_empty (a : Nat) : optVotes pollAB a = ∅ := by
  match a with
  | 0 => rfl
  | 1 => rfl
  | Nat.succ (Nat.succ n) => rfl

theorem single_vote_invariant_pollAB : single_vote_invariant pollAB := by
  intro _ w a b ha _
  rw [optVotes_pollAB_empty] at ha
  exact absurd ha (Finset.not_mem_empty w)

/-- Witness for C1: the concrete two-option poll satisfies the invariant,
and so do the results of the three vote mutations on it. -/
theorem c1_witness :
    single_vote_invariant pollAB ∧
    (single_vote_invariant (add_vote pollAB 0 5) ∧
     single_vote_invariant (remove_vote pollAB 0 5) ∧
     single_vote_invariant (toggle_vote pollAB 0 5)) :=
  ⟨single_vote_invariant_pollAB,
   c1_vote_mutations_preserve_single_vote_invariant pollAB 0 5
     single_vote_invariant_pollAB⟩

theorem pollStateExt (p q : PollState) (h1 : p.options = q.options)
    (h2 : p.allow_multiple_votes = q.allow_multiple_votes)
    (h3 : p.closed = q.closed) (h4 : p.expires = q.expires) : p = q := by
  cases p
  cases q
  simp_all

theorem optVotes_eq_votes (p : PollState) (i : Nat) (o : OptionState)
    (hc : p.options[i]? = some o) : optVotes p i = o.votes := by
  simp [optVotes, hc]

theorem modifyIdx_out_of_range (l : List α) (i : Nat) (f : α → α)
    (h : l.length ≤ i) : modifyIdx l i f = l := by
  induction l generalizing i with
  | nil => rfl
  | cons x xs ih =>
    cases i with
    | zero => exact absurd h (by simp)
    | succ i =>
      simp only [modifyIdx, List.cons.injEq, true_and]
      exact ih i (by simpa using h)

theorem mapVotesAt_out_of_range (p : PollState) (i : Nat) (f : Finset Nat → Finset Nat)
    (h : p.options.length ≤ i) : mapVotesAt p i f = p := by
  unfold mapVotesAt
  rw [modifyIdx_out_of_range p.options i _ h]

theorem remove_votes_from_eq_self (p : PollState) (v : Nat)
    (hall : ∀ j, v ∉ optVotes p j) : remove_votes_from p v = p := by
  refine pollStateExt _ _ ?_ rfl rfl rfl
  apply List.ext_getElem?
  intro n
  rw [remove_votes_from, mapVotesAll_getElem?]
  cases hc : p.options[n]? with
  | none => rfl
  | some o =>
    have hvn : v ∉ o.votes := by
      rw [← optVotes_eq_votes p n o hc]
      exact hall n
    simp [Finset.erase_eq_of_not_mem hvn]

theorem remove_vote_getElem? (p : PollState) (i v n : Nat) :
    (remove_vote p i v).options[n]? =
      if n = i then Option.map (fun o => { o with votes := o.votes.erase v }) p.options[n]?
      else p.options[n]? := by
  exact mapVotesAt_getElem? p i _ n

theorem add_vote_getElem?_multi (p : PollState) (i v n : Nat)
    (ha : p.allow_multiple_votes = true) :
    (add_vote p i v).options[n]? =
      if n = i then Option.map (fun o => { o with votes := insert v o.votes }) p.options[n]?
      else p.options[n]? := by
  show (mapVotesAt (if p.allow_multiple_votes then p else remove_votes_from p v) i _).options[n]? = _
  rw [ha]
  simp only [if_true]
  exact mapVotesAt_getElem? p i _ n

theorem add_vote_getElem?_single (p : PollState) (i v n : Nat)
    (ha : p.allow_multiple_votes = false) :
    (add_vote p i v).options[n]? =
      if n = i then
        Option.map (fun o => { o with votes := insert v (o.votes.erase v) }) p.options[n]?
      else Option.map (fun o => { o with votes := o.votes.erase v }) p.options[n]? := by
  show (mapVotesAt (if p.allow_multiple_votes then p else remove_votes_from p v) i _).options[n]? = _
  rw [ha]
  simp only [Bool.false_eq_true, if_false]
  rw [mapVotesAt_getElem?]
  by_cases hn : n = i
  · rw [if_pos hn, if_pos hn, remove_votes_from, mapVotesAll_getElem?]
    cases hc : p.options[n]? with
    | none => rfl
    | some o => rfl
  · rw [if_neg hn, if_neg hn, remove_votes_from, mapVotesAll_getElem?]

theorem remove_vote_closed (p : PollState) (i v : Nat) :
    (remove_vote p i v).closed = p.closed := rfl

theorem remove_vote_expires (p : PollState) (i v : Nat) :
    (remove_vote p i v).expires = p.expires := rfl

theorem add_vote_closed (p : PollState) (i v : Nat) :
    (add_vote p i v).closed = p.closed := by
  unfold add_vote
  split <;> rfl

theorem add_vote_expires (p : PollState) (i v : Nat) :
    (add_vote p i v).expires = p.expires := by
  unfold add_vote
  split <;> rfl

/-- C9: for every option and every voter id not currently in the option's
vote set, Option.remove_vote is a no-op: the sql.delete finds no row and
set.discard leaves the in-memory set (hence vote_count) unchanged, and
invoking it again is likewise a no-op. -/
theorem c9_remove_vote_absent_noop (p : PollState) (i v : Nat)
    (h : v ∉ optVotes p i) :
    remove_vote p i v = p ∧
    optVotes (remove_vote p i v) i = optVotes p i ∧
    vote_count (remove_vote p i v) i = vote_count p i ∧
    remove_vote (remove_vote p i v) i v = remove_vote p i v := by
  have heq : remove_vote p i v = p := by
    refine pollStateExt _ _ ?_ rfl rfl rfl
    apply List.ext_getElem?
    intro n
    rw [remove_vote_getElem?]
    by_cases hn : n = i
    · subst hn
      rw [if_pos rfl]
      cases hc : p.options[n]? with
      | none => rfl
      | some o =>
        have hv : v ∉ o.votes := by
          rw [← optVotes_eq_votes p n o hc]
          exact h
        simp [Finset.erase_eq_of_not_mem hv]
    · rw [if_neg hn]
  exact ⟨heq, by rw [heq], by rw [heq], by rw [heq]; exact heq⟩

/-- Concrete one-option poll where user 3 has voted. -/
def pollOne : PollState :=
  { options := [{ option_id := 1, label := "Yes", votes := {3}, author_id := none }],
    allow_multiple_votes := false,
    closed := false,
    expires := none }

/-- Witness for C9: voter 5 has no vote on the only option of pollOne, and
removing voter 5's vote changes nothing. -/
theorem c9_witness :
    (5 ∉ optVotes pollOne 0) ∧
    (remove_vote pollOne 0 5 = pollOne ∧
     optVotes (remove_vote pollOne 0 5) 0 = optVotes pollOne 0 ∧
     vote_count (remove_vote pollOne 0 5) 0 = vote_count pollOne 0 ∧
     remove_vote (remove_vote pollOne 0 5) 0 5 = remove_vote pollOne 0 5) :=
  ⟨by decide, c9_remove_vote_absent_noop pollOne 0 5 (by decide)⟩

/-- Single-vote poll with options A (no votes) and B (voter 5). -/
def pollC2 : PollState :=
  { options :=
      [{ option_id := 1, label := "A", votes := ∅, author_id := none },
       { option_id := 2, label := "B", votes := {5}, author_id := none }],
    allow_multiple_votes := false,
    closed := false,
    expires := none }

/-- Counterexample for C2 as stated: on a single-vote poll where voter 5
has a vote on sibling option B (index 1), toggling option A (index 0) twice
does not restore B's vote set: the first toggle moves the vote from B to A
and the second removes it from A, leaving voter 5 with no vote at all. -/
theorem c2_counterexample :
    5 ∈ optVotes pollC2 1 ∧
    5 ∉ optVotes (toggle_vote (toggle_vote pollC2 0 5) 0 5) 1 ∧
    toggle_vote (toggle_vote pollC2 0 5) 0 5 ≠ pollC2 := by
  decide

/-- C2 (amended): toggling the same (option, voter) pair twice in
succession restores the poll's full vote state provided the poll satisfies
the single-vote invariant and, in addition, the voter is already in the
option's vote set, or the poll allows multiple votes, or the voter holds no
vote on any option of the poll. (As stated the claim fails when a
single-vote poll voter's existing sibling vote is silently dropped by the
first toggle; see the counterexample.) -/
theorem c2_toggle_twice_restores (p : PollState) (i v : Nat)
    (hinv : single_vote_invariant p)
    (h : v ∈ optVotes p i ∨ p.allow_multiple_votes = true ∨ ∀ j, v ∉ optVotes p j) :
    toggle_vote (toggle_vote p i v) i v = p := by
  by_cases hv : v ∈ optVotes p i
  · -- first toggle removes the vote, second adds it back
    have t1 : toggle_vote p i v = remove_vote p i v := by
      rw [toggle_vote, if_pos hv]
    obtain ⟨o, hc⟩ : ∃ o, p.options[i]? = some o := by
      cases hc : p.options[i]? with
      | some o => exact ⟨o, rfl⟩
      | none =>
        exfalso
        have he : optVotes p i = ∅ := by simp [optVotes, hc]
        rw [he] at hv
        exact Finset.not_mem_empty v hv
    have hvo : v ∈ o.votes := by
      rw [← optVotes_eq_votes p i o hc]
      exact hv
    have hv2 : v ∉ optVotes (remove_vote p i v) i := by
      rw [optVotes_remove_vote, if_pos rfl]
      exact Finset.not_mem_erase v _
    have t2 : toggle_vote (remove_vote p i v) i v = add_vote (remove_vote p i v) i v := by
      rw [toggle_vote, if_neg hv2]
    rw [t1, t2]
    refine pollStateExt _ _ ?_ ?_ ?_ ?_
    · apply List.ext_getElem?
      intro n
      cases hall : p.allow_multiple_votes with
      | true =>
        have ha1 : (remove_vote p i v).allow_multiple_votes = true := by
          rw [remove_vote_allow, hall]
        rw [add_vote_getElem?_multi _ i v n ha1]
        by_cases hn : n = i
        · subst hn
          rw [if_pos rfl, remove_vote_getElem?, if_pos rfl, hc]
          simp only [Option.map_some']
          rw [Finset.insert_erase hvo]
        · rw [if_neg hn, remove_vote_getElem?, if_neg hn]
      | false =>
        have ha1 : (remove_vote p i v).allow_multiple_votes = false := by
          rw [remove_vote_allow, hall]
        rw [add_vote_getElem?_single _ i v n ha1]
        by_cases hn : n = i
        · subst hn
          rw [if_pos rfl, remove_vote_getElem?, if_pos rfl, hc]
          simp only [Option.map_some']
          rw [Finset.erase_idem, Finset.insert_erase hvo]
        · rw [if_neg hn, remove_vote_getElem?, if_neg hn]
          cases hc2 : p.options[n]? with
          | none => rfl
          | some o2 =>
            have hvn : v ∉ o2.votes := by
              rw [← optVotes_eq_votes p n o2 hc2]
              intro hmem
              exact hn (hinv hall v n i hmem hv)
            simp [Finset.erase_eq_of_not_mem hvn]
    · rw [add_vote_allow, remove_vote_allow]
    · rw [add_vote_closed, remove_vote_closed]
    · rw [add_vote_expires, remove_vote_expires]
  · -- first toggle adds the vote, second removes it
    have t1 : toggle_vote p i v = add_vote p i v := by
      rw [toggle_vote, if_neg hv]
    have h2 : p.allow_multiple_votes = true ∨ ∀ j, v ∉ optVotes p j := by
      rcases h with h1 | h1 | h1
      · exact absurd h1 hv
      · exact Or.inl h1
      · exact Or.inr h1
    by_cases hlen : i < p.options.length
    · obtain ⟨o, hc⟩ : ∃ o, p.options[i]? = some o :=
        ⟨p.options[i], List.getElem?_eq_getElem hlen⟩
      have hvo : v ∉ o.votes := by
        rw [← optVotes_eq_votes p i o hc]
        exact hv
      have hq : v ∈ optVotes (add_vote p i v) i := by
        rw [optVotes_add_vote, if_pos ⟨rfl, hlen⟩]
        exact Finset.mem_insert_self v _
      have t2 : toggle_vote (add_vote p i v) i v = remove_vote (add_vote p i v) i v := by
        rw [toggle_vote, if_pos hq]
      rw [t1, t2]
      refine pollStateExt _ _ ?_ ?_ ?_ ?_
      · apply List.ext_getElem?
        intro n
        rw [remove_vote_getElem?]
        rcases h2 with hall | hall
        · by_cases hn : n = i
          · subst hn
            rw [if_pos rfl, add_vote_getElem?_multi p n v n hall, if_pos rfl, hc]
            simp only [Option.map_some']
            rw [Finset.erase_insert hvo]
          · rw [if_neg hn, add_vote_getElem?_multi p i v n hall, if_neg hn]
        · cases hallow : p.allow_multiple_votes with
          | true =>
            by_cases hn : n = i
            · subst hn
              rw [if_pos rfl, add_vote_getElem?_multi p n v n hallow, if_pos rfl, hc]
              simp only [Option.map_some']
              rw [Finset.erase_insert hvo]
            · rw [if_neg hn, add_vote_getElem?_multi p i v n hallow, if_neg hn]
          | false =>
            by_cases hn : n = i
            · subst hn
              rw [if_pos rfl, add_vote_getElem?_single p n v n hallow, if_pos rfl, hc]
              simp only [Option.map_some']
              rw [Finset.erase_eq_of_not_mem hvo, Finset.erase_insert hvo]
            · rw [if_neg hn, add_vote_getElem?_single p i v n hallow, if_neg hn]
              cases hc2 : p.options[n]? with
              | none => rfl
              | some o2 =>
                have hvn : v ∉ o2.votes := by
                  rw [← optVotes_eq_votes p n o2 hc2]
                  exact hall n
                simp [Finset.erase_eq_of_not_mem hvn]
      · rw [remove_vote_allow, add_vote_allow]
      · rw [remove_vote_closed, add_vote_closed]
      · rw [remove_vote_expires, add_vote_expires]
    · -- the option index is out of range: both toggles are no-ops
      have hp1 : (if p.allow_multiple_votes then p else remove_votes_from p v) = p := by
        rcases h2 with hall | hall
        · simp [hall]
        · cases hx : p.allow_multiple_votes with
          | true => simp
          | false =>
            simp only [Bool.false_eq_true, if_false]
            exact remove_votes_from_eq_self p v hall
      have hq0 : add_vote p i v = p := by
        show mapVotesAt (if p.allow_multiple_votes then p else remove_votes_from p v)
          i (fun s => insert v s) = p
        rw [hp1]
        exact mapVotesAt_out_of_range p i _ (Nat.le_of_not_lt hlen)
      rw [t1, hq0, toggle_vote, if_neg hv]
      exact hq0

theorem optVotes_pollOne_succ (n : Nat) : optVotes pollOne (Nat.succ n) = ∅ := rfl

theorem single_vote_invariant_pollOne : single_vote_invariant pollOne := by
  intro _ w a b ha hb
  match a, b with
  | 0, 0 => rfl
  | 0, Nat.succ m =>
    rw [optVotes_pollOne_succ] at hb
    exact absurd hb (Finset.not_mem_empty w)
  | Nat.succ n, _ =>
    rw [optVotes_pollOne_succ] at ha
    exact absurd ha (Finset.not_mem_empty w)

/-- Witness for C2 (amended): voter 3 already has a vote on option 0 of
pollOne, so toggling (option 0, voter 3) twice restores the poll. -/
theorem c2_witness :
    single_vote_invariant pollOne ∧
    (3 ∈ optVotes pollOne 0 ∨ pollOne.allow_multiple_votes = true ∨
      ∀ j, 3 ∉ optVotes pollOne j) ∧
    toggle_vote (toggle_vote pollOne 0 3) 0 3 = pollOne :=
  ⟨single_vote_invariant_pollOne, Or.inl (by decide),
   c2_toggle_twice_restores pollOne 0 3 single_vote_invariant_pollOne
     (Or.inl (by decide))⟩

/-- State of the bot process that the presentation layer mutates: the
global poll counters of Paul.__init__ and a counter of poll-message edits
standing for the notifications sent by Paul.__update_poll_message. -/
structure BotState where
  total_poll_count : Nat
  closed_poll_count : Nat
  message_edits : Nat
deriving DecidableEq

/-- Modelled from the spec: Poll.close is not under src; section 4.2
specifies that it marks the poll closed (idempotently). -/
def close (p : PollState) : PollState :=
  { p with closed := true }

/-- Embeds Paul.__update_poll_message of src/paul_bot/presentation/paul.py:
edits the poll's message to re-render the poll state (one more edit). -/
def update_poll_message (b : BotState) : BotState :=
  { b with message_edits := b.message_edits + 1 }

/-- Embeds Paul.close_poll_now of src/paul_bot/presentation/paul.py: calls
poll.close(), updates the poll message, then unconditionally increments the
closed-poll counter — with no check whether the poll was already closed. -/
def close_poll_now (b : BotState) (p : PollState) : BotState × PollState :=
  let p2 := close p
  let b1 := update_poll_message b
  ({ b1 with closed_poll_count := b1.closed_poll_count + 1 }, p2)

/-- Embeds Paul.__poll_close_task of src/paul_bot/presentation/paul.py:
returns immediately when the poll has no expiry, otherwise sleeps until the
expiry and then calls close_poll_now — without checking whether the poll
was closed by another path in the meantime. -/
def poll_close_task (b : BotState) (p : PollState) : BotState × PollState :=
  match p.expires with
  | none => (b, p)
  | some _ => close_poll_now b p

/-- A poll that was already closed (e.g. manually via close_poll_now) while
its close task was still sleeping. -/
def pollAlreadyClosed : PollState :=
  { options := [], allow_multiple_votes := false, closed := true, expires := some 10 }

/-- Bot state after the manual close: one poll, one recorded closure, one
message edit. -/
def botAfterManualClose : BotState :=
  { total_poll_count := 1, closed_poll_count := 1, message_edits := 1 }

/-- C3 (code bug): a close task waking up after its poll was already closed
does NOT observe the closed state and no-op; it re-closes the poll, edits
the poll message again (duplicate notification) and increments the
closed-poll counter a second time, leaving closed_poll_count at 2 for a
single poll. Paul.__poll_close_task has no already-closed check, contrary
to the spec (sections 4.3 and 7). -/
theorem c3_stale_close_task_not_noop :
    pollAlreadyClosed.closed = true ∧
    (poll_close_task botAfterManualClose pollAlreadyClosed).1.closed_poll_count = 2 ∧
    (poll_close_task botAfterManualClose pollAlreadyClosed).1.message_edits = 2 ∧
    (poll_close_task botAfterManualClose pollAlreadyClosed).1.closed_poll_count ≠
      botAfterManualClose.closed_poll_count ∧
    (poll_close_task botAfterManualClose pollAlreadyClosed).1.message_edits ≠
      botAfterManualClose.message_edits := by
  decide

/-- Embeds Paul.toggle_vote of src/paul_bot/presentation/paul.py as
written: the statement option.toggle_vote(voter_id) calls the async method
without await, creating a coroutine object that is never awaited, so the
vote mutation never executes; only the message update that follows runs. -/
def paul_toggle_vote (b : BotState) (p : PollState) (_i _v : Nat) : BotState × PollState :=
  (update_poll_message b, p)

/-- C4 (code bug): the presentation layer's toggle-vote mutator leaves the
voter's membership in the option's vote set unchanged (the un-awaited
coroutine never runs), although the awaited Option.toggle_vote would have
flipped it; only the re-render notification happens. -/
theorem c4_paul_toggle_vote_does_not_flip :
    (paul_toggle_vote botAfterManualClose pollAB 0 7).2 = pollAB ∧
    7 ∉ optVotes (paul_toggle_vote botAfterManualClose pollAB 0 7).2 0 ∧
    7 ∈ optVotes (toggle_vote pollAB 0 7) 0 ∧
    (paul_toggle_vote botAfterManualClose pollAB 0 7).1.message_edits =
      botAfterManualClose.message_edits + 1 := by
  decide

/-- Maximum number of options per poll: Poll.MAX_OPTIONS; the converter in
src/paul_bot/presentation/converters.py hard-codes the same bound 23. -/
def MAX_OPTIONS : Nat := 23

/-- Characters stripped by Python str.strip with no argument. -/
def isPySpace (c : Char) : Bool :=
  c = ' ' ∨ c = '\t' ∨ c = '\n' ∨ c = '\r' ∨ c = '\x0b' ∨ c = '\x0c'

/-- Embeds str.split on the pipe separator, over the character list of the
input (strings are modelled by their character lists so that the embedding
stays kernel-computable): splitting an empty string yields one empty piece,
exactly as in Python. -/
def splitOnPipe (l : List Char) : List (List Char) :=
  match l with
  | [] => [[]]
  | c :: cs =>
    match splitOnPipe cs with
    | [] => [[]]
    | r :: rs => if c = '|' then [] :: r :: rs else (c :: r) :: rs

/-- Embeds str.strip: drops leading and trailing whitespace characters. -/
def stripChars (l : List Char) : List Char :=
  ((l.dropWhile isPySpace).reverse.dropWhile isPySpace).reverse

/-- Embeds the list comprehension of parse_options: split the input on the
separator, keep the non-empty pieces, strip each piece. -/
def cleaned_options (options : String) : List (List Char) :=
  ((splitOnPipe options.data).filter (fun o => o ≠ [])).map stripChars

/-- Embeds parse_options of src/paul_bot/presentation/converters.py (with
the default separator, the pipe): rejects more than 23 options, rejects any
option longer than 253 characters, falls back to Yes/No when nothing could
be parsed, and otherwise returns the cleaned list of labels. -/
def parse_options (options : String) : Except String (List (List Char)) :=
  if (cleaned_options options).length > 23 then
    Except.error "Too many options. Maximum is 23."
  else
    match (cleaned_options options).find? (fun o => o.length > 253) with
    | some _ => Except.error "Option is too long. Maximum is 253 characters."
    | none =>
      if cleaned_options options = [] then
        Except.ok [['Y', 'e', 's'], ['N', 'o']]
      else Except.ok (cleaned_options options)

/-- Modelled from the spec: Poll.create_poll is not under src; section 4.2
specifies that creation persists the poll row and its option rows and
returns the assembled poll. The slash command body of paul.py runs only
after every parameter converter (parse_options among them) has succeeded,
so a converter error reaches the requester before creation begins; this
definition composes the two, appending the created poll to the store. -/
def create_poll_command (options : String) (db : List PollState) :
    Except String (List PollState) :=
  match parse_options options with
  | Except.error e => Except.error e
  | Except.ok labels =>
    Except.ok (db ++
      [{ options := labels.map (fun l =>
           { option_id := 0, label := String.mk l, votes := ∅, author_id := none }),
         allow_multiple_votes := false, closed := false, expires := none }])

/-- C5: creating a poll whose option string parses to more than MAX_OPTIONS
labels fails with the capacity/validation error raised by the converter,
before anything is persisted: the creation pipeline returns the error and
the store is left untouched (no ok-result, hence no appended poll). -/
theorem c5_too_many_options_rejected (options : String) (db : List PollState)
    (h : (cleaned_options options).length > MAX_OPTIONS) :
    parse_options options = Except.error "Too many options. Maximum is 23." ∧
    create_poll_command options db =
      Except.error "Too many options. Maximum is 23." := by
  have hp : parse_options options = Except.error "Too many options. Maximum is 23." := by
    have h23 : (cleaned_options options).length > 23 := h
    unfold parse_options
    rw [if_pos h23]
  refine ⟨hp, ?_⟩
  unfold create_poll_command
  rw [hp]

/-- Option string that parses to 24 one-letter labels. -/
def tooManyOptionsInput : String :=
  "a|b|c|d|e|f|g|h|i|j|k|l|m|n|o|p|q|r|s|t|u|v|w|x"

/-- Witness for C5: 24 labels exceed the cap of 23 and creation fails. -/
theorem c5_witness :
    (cleaned_options tooManyOptionsInput).length > MAX_OPTIONS ∧
    (parse_options tooManyOptionsInput =
       Except.error "Too many options. Maximum is 23." ∧
     create_poll_command tooManyOptionsInput [] =
       Except.error "Too many options. Maximum is 23.") :=
  ⟨by decide, c5_too_many_options_rejected tooManyOptionsInput [] (by decide)⟩

/-- Modelled from the spec: Poll.new_option is not under src; section 4.2
specifies that it fails with a capacity error if the poll already has
MAX_OPTIONS options or is closed, and otherwise persists and appends one
Option (authored by the given user). -/
def new_option (p : PollState) (label : String) (author : Nat) :
    Except String PollState :=
  if MAX_OPTIONS ≤ p.options.length ∨ p.closed = true then
    Except.error "capacity error"
  else
    Except.ok { p with options := p.options ++
      [{ option_id := p.options.length + 1, label := label, votes := ∅,
         author_id := some author }] }

/-- Embeds Paul.add_poll_option of src/paul_bot/presentation/paul.py:
raises a FriendlyError when the poll already has MAX_OPTIONS options,
otherwise delegates to poll.new_option (which also rejects closed polls)
and then updates the poll message. -/
def add_poll_option (p : PollState) (label : String) (author : Nat) :
    Except String PollState :=
  if p.options.length = MAX_OPTIONS then
    Except.error "You cannot add more options to this poll."
  else new_option p label author

/-- C6: adding an option fails with a capacity error, applying no
mutation, whenever the poll already has MAX_OPTIONS options (or more) or
the poll is closed; otherwise it succeeds and the result is the input poll
with exactly one new option appended. -/
theorem c6_add_poll_option_spec (p : PollState) (label : String) (author : Nat) :
    ((MAX_OPTIONS ≤ p.options.length ∨ p.closed = true) →
      ∃ e, add_poll_option p label author = Except.error e) ∧
    (p.options.length < MAX_OPTIONS → p.closed = false →
      add_poll_option p label author =
        Except.ok { p with options := p.options ++
          [{ option_id := p.options.length + 1, label := label, votes := ∅,
             author_id := some author }] }) := by
  constructor
  · intro h
    unfold add_poll_option
    by_cases hl : p.options.length = MAX_OPTIONS
    · rw [if_pos hl]
      exact ⟨_, rfl⟩
    · rw [if_neg hl]
      unfold new_option
      rw [if_pos h]
      exact ⟨_, rfl⟩
  · intro h1 h2
    have hne : ¬p.options.length = MAX_OPTIONS := by omega
    have hcond : ¬(MAX_OPTIONS ≤ p.options.length ∨ p.closed = true) := by
      rintro (hx | hx)
      · omega
      · rw [h2] at hx
        cases hx
    unfold add_poll_option new_option
    rw [if_neg hne, if_neg hcond]

/-- A closed poll with no options. -/
def pollClosed : PollState :=
  { options := [], allow_multiple_votes := false, closed := true, expires := none }

/-- Witness for C6: adding to a closed poll errors; adding to the open
two-option poll pollAB appends exactly one new option. -/
theorem c6_witness :
    (∃ e, add_poll_option pollClosed "X" 9 = Except.error e) ∧
    add_poll_option pollAB "New" 9 =
      Except.ok { pollAB with options := pollAB.options ++
        [{ option_id := 3, label := "New", votes := ∅, author_id := some 9 }] } :=
  ⟨(c6_add_poll_option_spec pollClosed "X" 9).1 (Or.inr rfl),
   (c6_add_poll_option_spec pollAB "New" 9).2 (by decide) rfl⟩

/-- Embeds PollCommandParams as consumed by Paul.repeat_poll: the question,
option labels, optional expiry, the multiple-votes flag, optional repeat
interval (seconds) and optional repeat count. -/
structure PollCommandParams where
  question : String
  labels : List String
  expires : Option Int
  allow_multiple_votes : Bool
  repeat_time : Option Int
  repeat_count : Option Nat
deriving DecidableEq

/-- Embeds the while loop of Paul.repeat_poll for the case where both a
repeat time t and a repeat count are present, counting down the remaining
iterations. Each iteration awaits new_poll (recorded here by the created
poll's expires value), then executes the statement
params.expires += params.repeat_time: when expires is None this raises
TypeError (None + timedelta is unsupported in Python), aborting the task
after the poll of that iteration was already created; when expires is an
actual time it advances it by t, and the loop sleeps and continues. -/
def repeat_iterations (expires : Option Int) (t : Int) : Nat → List (Option Int) × Option String
  | 0 => ([], none)
  | Nat.succ k =>
    match expires with
    | none => ([none], some "TypeError: unsupported operand types for add")
    | some e =>
      let r := repeat_iterations (some (e + t)) t k
      (some e :: r.1, r.2)

/-- Embeds Paul.repeat_poll of src/paul_bot/presentation/paul.py: reports a
configuration error and returns before creating any poll when a repeat
count is given without a repeat time; with no repeat time (and no count) it
creates a single poll and breaks out of the loop; with both a repeat time
and a repeat count it runs the counted loop; with a repeat time and no
count the while loop never terminates, which the model leaves undefined
(none). The result records the expires of each created poll in creation
order, together with the error that aborted the task, if any. -/
def repeat_poll (params : PollCommandParams) :
    Option (List (Option Int) × Option String) :=
  match params.repeat_time, params.repeat_count with
  | none, some _ =>
    some ([], some "You need to define a repeat time if you have defined a repeat count.")
  | none, none => some ([params.expires], none)
  | some t, some n => some (repeat_iterations params.expires t n)
  | some _, none => none

/-- C7: a repeat count without a repeat interval is a configuration error
reported to the requester before any poll is created: the loop edits the
message with the error text and returns with zero polls created. -/
theorem c7_repeat_count_without_interval (params : PollCommandParams) (n : Nat)
    (h1 : params.repeat_time = none) (h2 : params.repeat_count = some n) :
    repeat_poll params =
      some ([], some "You need to define a repeat time if you have defined a repeat count.") := by
  unfold repeat_poll
  rw [h1, h2]

/-- Repeat configuration with a count but no interval. -/
def paramsCountNoInterval : PollCommandParams :=
  { question := "Q", labels := ["Yes", "No"], expires := some 100,
    allow_multiple_votes := false, repeat_time := none, repeat_count := some 3 }

/-- Witness for C7: with repeat count 3 and no interval the loop reports
the configuration error and creates zero polls. -/
theorem c7_witness :
    paramsCountNoInterval.repeat_time = none ∧
    paramsCountNoInterval.repeat_count = some 3 ∧
    repeat_poll paramsCountNoInterval =
      some ([], some "You need to define a repeat time if you have defined a repeat count.") :=
  ⟨rfl, rfl, c7_repeat_count_without_interval paramsCountNoInterval 3 rfl rfl⟩

theorem repeat_iterations_closed_form (t : Int) (n : Nat) :
    ∀ e : Int, repeat_iterations (some e) t n =
      ((List.range n).map (fun k : Nat => some (e + (k : Int) * t)), none) := by
  induction n with
  | zero => intro e; rfl
  | succ k ih =>
    intro e
    show (some e :: (repeat_iterations (some (e + t)) t k).1,
          (repeat_iterations (some (e + t)) t k).2) = _
    rw [ih (e + t)]
    simp only [Prod.mk.injEq, List.range_succ_eq_map, List.map_cons, List.map_map,
      List.cons.injEq]
    refine ⟨⟨?_, ?_⟩, trivial⟩
    · norm_num
    · apply List.map_congr_left
      intro a _
      simp only [Function.comp_apply]
      congr 1
      push_cast
      ring

/-- Repeat configuration with interval 1 and count 3 but no expiry (the
slash command's expires parameter defaults to None). -/
def paramsNoExpiry : PollCommandParams :=
  { question := "Q", labels := ["Yes", "No"], expires := none,
    allow_multiple_votes := false, repeat_time := some 1, repeat_count := some 3 }

/-- Counterexample for C8 as stated: with interval 1 and count 3 but no
expiry, the loop creates the first poll and then crashes with a TypeError
at params.expires += params.repeat_time (None + timedelta), so exactly one
poll is created instead of three. -/
theorem c8_counterexample :
    repeat_poll paramsNoExpiry =
      some ([none], some "TypeError: unsupported operand types for add") ∧
    (repeat_poll paramsNoExpiry).map (fun r => r.1.length) = some 1 ∧
    some 1 ≠ (some 3 : Option Nat) := by
  refine ⟨rfl, rfl, by decide⟩

/-- C8 (amended): for a repeat configuration with interval t, repeat count
n and an actual expiry time e, the repeat loop creates exactly n polls in
sequence, the k-th (0-based) carrying expires e + k * t — each successor
advanced by exactly t from the previous poll's expiry — and terminates
without error, so no (n+1)-th poll is created. (As stated the claim fails
when the configuration has no expiry; see the counterexample.) -/
theorem c8_repeat_creates_exactly_n_polls (params : PollCommandParams)
    (t e : Int) (n : Nat)
    (h1 : params.repeat_time = some t) (h2 : params.repeat_count = some n)
    (h3 : params.expires = some e) :
    repeat_poll params =
      some ((List.range n).map (fun k : Nat => some (e + (k : Int) * t)), none) ∧
    ∃ r, repeat_poll params = some r ∧ r.1.length = n := by
  have hmain : repeat_poll params =
      some ((List.range n).map (fun k : Nat => some (e + (k : Int) * t)), none) := by
    unfold repeat_poll
    rw [h1, h2, h3]
    show some (repeat_iterations (some e) t n) = _
    rw [repeat_iterations_closed_form t n e]
  refine ⟨hmain, ⟨_, hmain, ?_⟩⟩
  simp

/-- Repeat configuration with expiry 100, interval 1 and count 3. -/
def paramsRepeat3 : PollCommandParams :=
  { question := "Q", labels := ["Yes", "No"], expires := some 100,
    allow_multiple_votes := false, repeat_time := some 1, repeat_count := some 3 }

/-- Witness for C8 (amended): interval 1 second, count 3, expiry 100:
exactly the three polls with expires 100, 101, 102 are created. -/
theorem c8_witness :
    repeat_poll paramsRepeat3 = some ([some 100, some 101, some 102], none) := by
  rw [(c8_repeat_creates_exactly_n_polls paramsRepeat3 1 100 3 rfl rfl rfl).1]
  decide

/-- Heap of Python set objects, addressed by allocation index; needed to
express aliasing, which a pure value model cannot distinguish. -/
structure SetHeap where
  sets : List (Finset Nat)
deriving DecidableEq

/-- Reads the set stored under a reference (empty for a dangling one). -/
def readRef (h : SetHeap) (r : Nat) : Finset Nat :=
  (h.sets[r]?).getD ∅

/-- Overwrites the set stored under a reference (models in-place mutation
of a Python set object, e.g. add/discard/clear on it). -/
def writeRef (h : SetHeap) (r : Nat) (s : Finset Nat) : SetHeap :=
  { sets := modifyIdx h.sets r (fun _ => s) }

/-- Allocates a new set object and returns its reference. -/
def alloc (h : SetHeap) (s : Finset Nat) : SetHeap × Nat :=
  ({ sets := h.sets ++ [s] }, h.sets.length)

/-- Option object whose private __votes attribute is a heap reference. -/
structure OptionObj where
  option_id : Nat
  label : String
  votesRef : Nat
  author_id : Option Nat
deriving DecidableEq

/-- Embeds the votes property of src/poll/option.py: it returns
self.__votes.copy(), i.e. a freshly allocated set object holding the same
voter ids; the internal set itself is not handed out. -/
def votes_property (h : SetHeap) (o : OptionObj) : SetHeap × Nat :=
  alloc h (readRef h o.votesRef)

/-- Embeds the vote_count property of src/poll/option.py: the length of
the internal set; a pure read returning a number, no heap change. -/
def vote_count_property (h : SetHeap) (o : OptionObj) : Nat :=
  (readRef h o.votesRef).card

/-- C10: reading Option.votes returns a fresh copy of the internal voter
set: the returned reference differs from the internal one, it holds the
same contents, the accessor does not change the internal set, and no
mutation through the returned reference can change the internal set or the
value of vote_count; vote_count itself reads without touching the heap. -/
theorem c10_votes_is_fresh_copy (h : SetHeap) (o : OptionObj)
    (hr : o.votesRef < h.sets.length) :
    (votes_property h o).2 ≠ o.votesRef ∧
    readRef (votes_property h o).1 (votes_property h o).2 = readRef h o.votesRef ∧
    readRef (votes_property h o).1 o.votesRef = readRef h o.votesRef ∧
    (∀ s, readRef (writeRef (votes_property h o).1 (votes_property h o).2 s) o.votesRef
      = readRef h o.votesRef) ∧
    (∀ s, vote_count_property
        (writeRef (votes_property h o).1 (votes_property h o).2 s) o
      = vote_count_property h o) := by
  have hne : h.sets.length ≠ o.votesRef := (Nat.ne_of_lt hr).symm
  have hget : ∀ s : Finset Nat, (h.sets ++ [s])[o.votesRef]? = h.sets[o.votesRef]? := by
    intro s
    rw [List.getElem?_append]
    simp [hr]
  have hwrite : ∀ s, readRef (writeRef (votes_property h o).1 (votes_property h o).2 s)
      o.votesRef = readRef h o.votesRef := by
    intro s
    show ((modifyIdx (h.sets ++ [readRef h o.votesRef]) h.sets.length
      (fun _ => s))[o.votesRef]?).getD ∅ = _
    rw [modifyIdx_getElem?, if_neg hne.symm, hget]
    rfl
  refine ⟨hne.symm.symm, ?_, ?_, hwrite, ?_⟩
  · show ((h.sets ++ [readRef h o.votesRef])[h.sets.length]?).getD ∅ = _
    rw [List.getElem?_concat_length]
    rfl
  · show ((h.sets ++ [readRef h o.votesRef])[o.votesRef]?).getD ∅ = _
    rw [hget]
    rfl
  · intro s
    show (readRef (writeRef (votes_property h o).1 (votes_property h o).2 s)
      o.votesRef).card = (readRef h o.votesRef).card
    rw [hwrite s]

/-- Concrete heap with one set object holding voters 1 and 2, and the
option whose internal votes reference points at it. -/
def heap0 : SetHeap :=
  { sets := [{1, 2}] }

/-- Option object over heap0. -/
def opt0 : OptionObj :=
  { option_id := 1, label := "Yes", votesRef := 0, author_id := none }

/-- Witness for C10: on the concrete heap the copy is fresh and clearing
the copy (overwriting it with the empty set) leaves the internal set and
the vote count unchanged. -/
theorem c10_witness :
    opt0.votesRef < heap0.sets.length ∧
    (votes_property heap0 opt0).2 ≠ opt0.votesRef ∧
    readRef (writeRef (votes_property heap0 opt0).1 (votes_property heap0 opt0).2 ∅)
      opt0.votesRef = readRef heap0 opt0.votesRef ∧
    vote_count_property
      (writeRef (votes_property heap0 opt0).1 (votes_property heap0 opt0).2 ∅) opt0
      = vote_count_property heap0 opt0 :=
  ⟨by decide,
   (c10_votes_is_fresh_copy heap0 opt0 (by decide)).1,
   (c10_votes_is_fresh_copy heap0 opt0 (by decide)).2.2.2.1 ∅,
   (c10_votes_is_fresh_copy heap0 opt0 (by decide)).2.2.2.2 ∅⟩
